import Mathlib

/-!
Verification of the transaction-normalization and ledger-consolidation
pipeline of `src/dashboard.py` (clinic dashboard).

Shallow embedding conventions:
* Calendar dates are day numbers (`ℤ`); the program uses `date` objects with
  no time-of-day semantics. `today` (the current processing date,
  `datetime.now().date()`) is an explicit parameter.
* Currency amounts are `ℚ` (Python floats are used only for exact decimal
  currency values such as `75.00`).
* External parsing libraries (`pd.to_datetime`, Python `float`) are modelled
  by letting a raw field carry its parse result: `Option ℤ` / `Option ℚ`,
  where `none` means the parser raises on the raw value.
* An uncaught Python exception is modelled by the surrounding function
  returning `none`.
* `random.choice` / `random.randint` draws are an explicit input stream
  `draws : ℕ → Fin 2 × Fin 31` (index into the `services` list, day offset).
-/

/-- The single normalized ledger entity: the dict appended to
`plaid_data` / `sheet_data` / `rev_data` in `dashboard.py`
(keys Date, Description, Amount, Category, Source, Flow, Receipt). -/
structure LedgerRecord where
  date : ℤ
  description : String
  amount : ℚ
  category : String
  source : String
  flow : String
  receipt : Option String
deriving DecidableEq, Repr

/-- `leadsWith pat l` : `pat` is an initial run of `l` (helper for Python's
substring test `pat in s`). -/
def leadsWith : List Char → List Char → Bool
  | [], _ => true
  | _ :: _, [] => false
  | a :: pat, b :: l => a = b && leadsWith pat l

/-- `occursIn pat l` : `pat` occurs contiguously somewhere in `l`. -/
def occursIn (pat : List Char) : List Char → Bool
  | [] => leadsWith pat []
  | l@(_ :: rest) => leadsWith pat l || occursIn pat rest

/-- Python's substring membership `pat in s`. -/
def substrOf (pat s : String) : Bool :=
  occursIn pat.data s.data

/-- Python's `str.lower()`: character-wise lower-casing. -/
def pyLower (s : String) : String :=
  ⟨s.data.map Char.toLower⟩

/-- `clean_expense_category` from `dashboard.py` (lines 67-72): lower-case the
name, then ordered substring rules, falling back to `"Misc. Expense"`. -/
def clean_expense_category (name : String) : String :=
  let n := pyLower name
  if substrOf "uber" n || substrOf "united" n then "Travel"
  else if substrOf "mcdonald" n || substrOf "starbucks" n then "Meals"
  else if substrOf "sparkfun" n || substrOf "apple" n then "Equipment/Supplies"
  else "Misc. Expense"

/-- The classifier's rule table as data, in source order: each rule is a
keyword set paired with its category (spec §4.1 view of the same rules). -/
def rules : List (List String × String) :=
  [(["uber", "united"], "Travel"),
   (["mcdonald", "starbucks"], "Meals"),
   (["sparkfun", "apple"], "Equipment/Supplies")]

/-- Spec §4.1 algorithm, stated generically: lower-case the input, return the
category of the first rule in `rules` with a keyword present as a substring,
else the fixed fallback. Used to check `clean_expense_category` against the
spec's ordered-rules contract. -/
def classifySpec (name : String) : String :=
  let n := pyLower name
  match rules.find? (fun r => r.1.any (fun k => substrOf k n)) with
  | some r => r.2
  | none => "Misc. Expense"

/-- A raw Plaid transaction from `response['added']`: fields `date`, `name`,
`amount`. Plaid dates are well-formed, so `date` is carried already parsed. -/
structure BankTxn where
  date : ℤ
  name : String
  amount : ℚ
deriving DecidableEq, Repr

/-- Bank-feed mapping, `dashboard.py` lines 84-93: one raw transaction to one
ledger record. -/
def bankRecord (t : BankTxn) : LedgerRecord :=
  { date := t.date
    description := t.name
    amount := t.amount
    category := clean_expense_category t.name
    source := "Bank Feed (Plaid)"
    flow := "OUT (Expense)"
    receipt := none }

/-- A raw spreadsheet row as returned by `sheet.get_all_records()`.
`Date` carries the result of `pd.to_datetime(row['Date'])` (`none` = the
parser raises), `Amount` the result of `float(row['Amount'])` (`none` = the
coercion raises), and `receipts` is `none` when the column is absent. -/
structure SheetRow where
  Date : Option ℤ
  Description : String
  Amount : Option ℚ
  Category : String
  receipts : Option String
deriving DecidableEq, Repr

/-- Receipt extraction, `dashboard.py` lines 107-109:
`row.get('receipts', None)` (total, never raises) followed by normalizing the
empty string to `None`. -/
def receipt_of (row : SheetRow) : Option String :=
  let receipt_link := row.receipts
  if receipt_link = some "" then none else receipt_link

/-- Per-row spreadsheet mapping, `dashboard.py` lines 101-119: date with
try/except fallback to the current processing date, amount coerced from the
`Amount` field, category verbatim. Meaningful when `row.Amount` parses
(`sheet_data` guards that case; the `getD 0` branch is unreachable there). -/
def convRow (today : ℤ) (row : SheetRow) : LedgerRecord :=
  { date := row.Date.getD today
    description := row.Description
    amount := row.Amount.getD 0
    category := row.Category
    source := "Google Sheet"
    flow := "OUT (Expense)"
    receipt := receipt_of row }

/-- The spreadsheet row loop, `dashboard.py` lines 100-119. Only the date
parse sits in a try/except; `float(row['Amount'])` is unguarded, so a row
whose `Amount` does not parse raises out of `main` and the whole batch is
lost (`none`). -/
def sheet_data (today : ℤ) : List SheetRow → Option (List LedgerRecord)
  | [] => some []
  | row :: rest =>
    match row.Amount, sheet_data today rest with
    | some _, some recs => some (convRow today row :: recs)
    | _, _ => none

/-- The fixed price list `services`, `dashboard.py` lines 123-126:
(Item, Amount, Type) entries. -/
def services : List (String × ℚ × String) :=
  [("NCS Tech Fee", 75, "EMG Tech Svc"),
   ("Facility Split", 150, "Facility Split")]

/-- The revenue simulator loop, `dashboard.py` lines 127-137: thirty
iterations, each drawing one `services` entry and a 0-30 day offset from the
random stream. -/
def rev_data (today : ℤ) (draws : ℕ → Fin 2 × Fin 31) : List LedgerRecord :=
  (List.range 30).map (fun i =>
    let choice := draws i
    let sale := services.get ⟨(choice.1 : ℕ), choice.1.isLt⟩
    { date := today - (choice.2 : ℕ)
      description := sale.1
      amount := sale.2.1
      category := sale.2.2
      source := "Simulator"
      flow := "IN (Revenue)"
      receipt := none })

/-- Ordering used by `sort_values(by="Date", ascending=False)`: dates
non-increasing. -/
def dateGE (a b : LedgerRecord) : Prop := b.date ≤ a.date

instance : DecidableRel dateGE := fun a b => Int.decLe b.date a.date

instance : IsTotal LedgerRecord dateGE := ⟨fun a b => le_total b.date a.date⟩

instance : IsTrans LedgerRecord dateGE := ⟨fun _ _ _ h1 h2 => le_trans h2 h1⟩

/-- The merge step, `dashboard.py` lines 144-151: drop empty frames, halt the
render (`st.stop()`, modelled `none`) when every frame is empty, otherwise
concatenate and sort by date descending. The source sort is pandas'
default (unstable) quicksort; it is modelled by an ordering-correct sort,
and only order-insensitive properties (multiset, length, sortedness) are
asserted about its output. -/
def consolidate (sets : List (List LedgerRecord)) : Option (List LedgerRecord) :=
  let dfs_to_merge := sets.filter (fun df => !df.isEmpty)
  if dfs_to_merge.isEmpty then none
  else some (List.insertionSort dateGE dfs_to_merge.flatten)

/-- `total_rev`, `dashboard.py` line 155. -/
def total_rev (l : List LedgerRecord) : ℚ :=
  ((l.filter (fun r => r.flow = "IN (Revenue)")).map (fun r => r.amount)).sum

/-- `total_exp`, `dashboard.py` line 156. -/
def total_exp (l : List LedgerRecord) : ℚ :=
  ((l.filter (fun r => r.flow = "OUT (Expense)")).map (fun r => r.amount)).sum

/-- The displayed KPI metrics, `dashboard.py` lines 155-162: exactly three
labelled values (revenue, expenses, net = revenue - expenses). -/
def compute_metrics (l : List LedgerRecord) : List (String × ℚ) :=
  [("Total Revenue", total_rev l),
   ("Total Expenses", total_exp l),
   ("Net Profit", total_rev l - total_exp l)]

/-- Outcome of one dashboard render: which non-fatal notices were shown
(`st.error` for Plaid, `st.warning` for the sheet) and the consolidated
ledger. -/
structure RenderResult where
  plaidError : Bool
  sheetWarning : Bool
  ledger : List LedgerRecord
deriving DecidableEq, Repr

/-- The data pipeline of `main`, `dashboard.py` lines 78-151.
`bank = none` models the Plaid fetch raising (caught: `st.error`, empty
list); `sheet = none` models `get_google_sheet_data` failing (caught inside:
warning, empty DataFrame). An unguarded `float()` failure in the sheet loop
crashes the render (`none`), as does `st.stop()` when all frames are empty. -/
def main_run (today : ℤ) (bank : Option (List BankTxn))
    (sheet : Option (List SheetRow)) (draws : ℕ → Fin 2 × Fin 31) :
    Option RenderResult :=
  match sheet_data today (sheet.getD []) with
  | none => none
  | some sheet_recs =>
    match consolidate [(bank.getD []).map bankRecord, sheet_recs,
        rev_data today draws] with
    | none => none
    | some ledger =>
      some { plaidError := bank.isNone, sheetWarning := sheet.isNone, ledger := ledger }

/-! ## Concrete fixtures used by counterexamples and witnesses -/

/-- A well-formed spreadsheet row: every field parses, no receipts column. -/
def goodRow : SheetRow := ⟨some 10, "Gloves", some 45, "Supplies", none⟩

/-- A spreadsheet row whose `Amount` cell does not coerce to a float. -/
def badAmountRow : SheetRow := ⟨some 11, "Tape", none, "Supplies", none⟩

/-- A spreadsheet row whose `Date` cell does not parse. -/
def dateBadRow : SheetRow := ⟨none, "Misc", some 12, "Misc. Expense", none⟩

/-- A constant random stream: always the first service, offset 0 days. -/
def demoDraws : ℕ → Fin 2 × Fin 31 := fun _ => (0, 0)

/-- A concrete revenue-flow ledger record. -/
def demoRevRecord : LedgerRecord :=
  ⟨0, "NCS Tech Fee", 200, "EMG Tech Svc", "Simulator", "IN (Revenue)", none⟩

/-- A concrete expense-flow ledger record. -/
def demoExpRecord : LedgerRecord :=
  ⟨0, "Uber ride", 50, "Travel", "Bank Feed (Plaid)", "OUT (Expense)", none⟩

/-- A raw bank transaction with a negative amount (e.g. a refund). -/
def negTxn : BankTxn := ⟨0, "Refund", -10⟩

/-! ## Helper lemmas -/

/-- Summing a projection over a filtered list equals summing the guarded
projection over the whole list. -/
theorem sum_filter_amount (p : LedgerRecord → Prop) [DecidablePred p]
    (l : List LedgerRecord) :
    ((l.filter (fun r => p r)).map (fun r => r.amount)).sum
      = (l.map (fun r => if p r then r.amount else 0)).sum := by
  induction l with
  | nil => rfl
  | cons a l ih =>
    by_cases h : p a <;> simp [List.filter_cons, h, ih]

/-- Dropping the empty lists before flattening changes nothing. -/
theorem flatten_filter_nonempty (sets : List (List LedgerRecord)) :
    (sets.filter (fun df => !df.isEmpty)).flatten = sets.flatten := by
  induction sets with
  | nil => rfl
  | cons s rest ih =>
    by_cases h : s.isEmpty
    · have hs : s = [] := List.isEmpty_iff.mp h
      simp [List.filter_cons, h, hs, ih]
    · simp [List.filter_cons, h, ih]

/-- When every row's `Amount` coerces, the sheet loop converts each row. -/
theorem sheet_data_all_parse (today : ℤ) (rows : List SheetRow)
    (h : ∀ r ∈ rows, (r.Amount).isSome) :
    sheet_data today rows = some (rows.map (convRow today)) := by
  induction rows with
  | nil => rfl
  | cons row rest ih =>
    obtain ⟨a, ha⟩ := Option.isSome_iff_exists.mp (h row (by simp))
    have h2 := ih (fun r hr => h r (by simp [hr]))
    simp [sheet_data, ha, h2]

/-- A successful sheet batch is exactly the row-wise conversion, and every
row's `Amount` coerced. -/
theorem sheet_data_some_eq (today : ℤ) (rows : List SheetRow)
    (recs : List LedgerRecord) (h : sheet_data today rows = some recs) :
    recs = rows.map (convRow today) ∧ ∀ r ∈ rows, (r.Amount).isSome := by
  induction rows generalizing recs with
  | nil =>
    simp only [sheet_data, Option.some.injEq] at h
    simp [← h]
  | cons row rest ih =>
    unfold sheet_data at h
    cases ha : row.Amount with
    | none => rw [ha] at h; exact absurd h (by cases sheet_data today rest <;> simp)
    | some a =>
      cases hrest : sheet_data today rest with
      | none => rw [ha, hrest] at h; exact absurd h (by simp)
      | some recs0 =>
        rw [ha, hrest] at h
        simp only [Option.some.injEq] at h
        obtain ⟨hrecs, hall⟩ := ih recs0 hrest
        subst h
        refine ⟨by simp [hrecs], ?_⟩
        intro r hr
        rcases List.mem_cons.mp hr with rfl | hr2
        · simp [ha]
        · exact hall r hr2

/-- One row with an uncoercible `Amount` loses the whole batch. -/
theorem sheet_data_fails (today : ℤ) (rows : List SheetRow)
    (h : ∃ r ∈ rows, r.Amount = none) : sheet_data today rows = none := by
  induction rows with
  | nil => simp at h
  | cons row rest ih =>
    obtain ⟨r, hr, hnone⟩ := h
    rcases List.mem_cons.mp hr with rfl | hr2
    · unfold sheet_data; rw [hnone]
    · have h2 := ih ⟨r, hr2, hnone⟩
      unfold sheet_data; rw [h2]
      cases row.Amount <;> rfl

/-- As long as one input frame is non-empty, the merge returns a ledger that
is a permutation of the concatenation, with the full combined length, sorted
non-increasing by date. -/
theorem consolidate_spec (sets : List (List LedgerRecord))
    (h : ∃ s ∈ sets, s ≠ []) :
    ∃ l, consolidate sets = some l ∧ l.Perm sets.flatten ∧
      l.length = (sets.map List.length).sum ∧ List.Sorted dateGE l := by
  obtain ⟨s, hs, hsne⟩ := h
  have hne : ((sets.filter (fun df => !df.isEmpty)).isEmpty = true) → False := by
    intro he
    have : s ∈ sets.filter (fun df => !df.isEmpty) := by
      refine List.mem_filter.mpr ⟨hs, ?_⟩
      simp [List.isEmpty_iff, hsne]
    rw [List.isEmpty_iff.mp he] at this
    simp at this
  refine ⟨List.insertionSort dateGE ((sets.filter (fun df => !df.isEmpty)).flatten),
    ?_, ?_, ?_, List.sorted_insertionSort _ _⟩
  · unfold consolidate
    simp only [Bool.not_eq_true]
    rw [if_neg (by intro he; exact hne he)]
  · exact (List.perm_insertionSort _ _).trans
      (by rw [flatten_filter_nonempty])
  · rw [(List.perm_insertionSort dateGE _).length_eq, flatten_filter_nonempty,
      List.length_flatten]

/-- Membership in a merged ledger comes from membership in one of the input
frames. -/
theorem consolidate_mem {sets : List (List LedgerRecord)}
    {l : List LedgerRecord} (h : consolidate sets = some l) :
    ∀ r ∈ l, r ∈ sets.flatten := by
  intro r hr
  unfold consolidate at h
  by_cases he : (sets.filter (fun df => !df.isEmpty)).isEmpty
  · rw [if_pos he] at h; cases h
  · rw [if_neg he] at h
    simp only [Option.some.injEq] at h
    rw [← h] at hr
    have := (List.perm_insertionSort dateGE _).mem_iff.mp hr
    rwa [flatten_filter_nonempty] at this

/-- Every record the simulator loop emits: fixed flow/source/no receipt, its
payload is one of the `services` entries, and its date is at most 30 days
back from the processing date. -/
theorem rev_data_mem_spec (today : ℤ) (draws : ℕ → Fin 2 × Fin 31) :
    ∀ r ∈ rev_data today draws,
      r.flow = "IN (Revenue)" ∧ r.source = "Simulator" ∧ r.receipt = none ∧
      (r.description, r.amount, r.category) ∈ services ∧
      today - 30 ≤ r.date ∧ r.date ≤ today := by
  intro r hr
  simp only [rev_data, List.mem_map, List.mem_range] at hr
  obtain ⟨i, _, rfl⟩ := hr
  refine ⟨rfl, rfl, rfl, ?_, ?_, ?_⟩
  · simp
  · have h31 : ((draws i).2 : ℕ) < 31 := (draws i).2.isLt
    simp only
    omega
  · have h0 : (0 : ℤ) ≤ ((draws i).2 : ℕ) := Int.ofNat_nonneg _
    simp only
    omega

/-- The simulator loop runs exactly 30 times. -/
theorem rev_data_length (today : ℤ) (draws : ℕ → Fin 2 × Fin 31) :
    (rev_data today draws).length = 30 := by
  simp [rev_data]

/-! ## Claim theorems -/

/-- C4: the category classifier is total over all strings, lower-cases the
input, tests the ordered rule list and returns the first rule whose keyword
set has a member present as a substring, falling back to "Misc. Expense";
the first matching rule wins and the output always lies in the fixed
taxonomy. -/
theorem clean_expense_category_spec (s : String) :
    clean_expense_category s = classifySpec s ∧
    clean_expense_category s ∈
      ["Travel", "Meals", "Equipment/Supplies", "Misc. Expense"] := by
  cases h1 : substrOf "uber" (pyLower s) <;>
  cases h2 : substrOf "united" (pyLower s) <;>
  cases h3 : substrOf "mcdonald" (pyLower s) <;>
  cases h4 : substrOf "starbucks" (pyLower s) <;>
  cases h5 : substrOf "sparkfun" (pyLower s) <;>
  cases h6 : substrOf "apple" (pyLower s) <;>
  simp [clean_expense_category, classifySpec, rules, List.find?,
    h1, h2, h3, h4, h5, h6]

/-- C4 witness: the classifier and the ordered-rule evaluator agree on a
concrete description that matches the first rule. -/
theorem clean_expense_category_spec_witness :
    clean_expense_category "Uber trip" = classifySpec "Uber trip" ∧
    clean_expense_category "Uber trip" ∈
      ["Travel", "Meals", "Equipment/Supplies", "Misc. Expense"] :=
  clean_expense_category_spec "Uber trip"

/-- C10: a missing `receipts` column or an empty-string receipt both yield an
absent receipt, and the receipt of a converted row is never the empty
string. -/
theorem receipt_normalized (today : ℤ) (row : SheetRow) :
    ((row.receipts = none ∨ row.receipts = some "") →
      (convRow today row).receipt = none) ∧
    (convRow today row).receipt ≠ some "" := by
  constructor
  · rintro (h | h) <;> simp [convRow, receipt_of, h]
  · cases h : row.receipts with
    | none => simp [convRow, receipt_of, h]
    | some v =>
      by_cases hv : v = "" <;> simp [convRow, receipt_of, h, hv]

/-- C10 witness: a concrete row with `receipts = ""` converts to a record
with an absent receipt. -/
theorem receipt_normalized_witness :
    (convRow 0 ⟨some 0, "Gloves", some 45, "Supplies", some ""⟩).receipt = none ∧
    (convRow 0 ⟨some 0, "Gloves", some 45, "Supplies", some ""⟩).receipt ≠ some "" := by
  have h := receipt_normalized 0 ⟨some 0, "Gloves", some 45, "Supplies", some ""⟩
  exact ⟨h.1 (Or.inr rfl), h.2⟩

/-- C3 counterexample: no profit margin is ever computed. On a ledger with
total revenue 200 and total expense 50 the claimed
`profit_margin = net_profit / total_revenue * 100` would be 75, but the
metrics computed by the code are exactly the three KPIs (revenue, expenses,
net) and the value 75 appears nowhere among them. -/
theorem compute_metrics_no_margin :
    (compute_metrics [demoRevRecord, demoExpRecord]).map Prod.fst
      = ["Total Revenue", "Total Expenses", "Net Profit"] ∧
    ((150 : ℚ) / 200 * 100) ∉
      (compute_metrics [demoRevRecord, demoExpRecord]).map Prod.snd := by
  refine ⟨rfl, ?_⟩
  intro hmem
  simp [compute_metrics, total_rev, total_exp, demoRevRecord, demoExpRecord,
    List.filter_cons] at hmem
  norm_num at hmem

/-- C3 (amended): the metrics are the three displayed KPIs: total revenue is
the sum of `amount` over records with revenue flow, total expenses the sum
over expense flow, net profit their difference; no profit margin is
computed; on an empty ledger all three are 0 and no division occurs. -/
theorem compute_metrics_spec (l : List LedgerRecord) :
    compute_metrics l =
      [("Total Revenue", total_rev l), ("Total Expenses", total_exp l),
       ("Net Profit", total_rev l - total_exp l)] ∧
    total_rev l = (l.map (fun r => if r.flow = "IN (Revenue)" then r.amount else 0)).sum ∧
    total_exp l = (l.map (fun r => if r.flow = "OUT (Expense)" then r.amount else 0)).sum ∧
    compute_metrics [] = [("Total Revenue", 0), ("Total Expenses", 0), ("Net Profit", 0)] := by
  refine ⟨rfl, ?_, ?_, by simp [compute_metrics, total_rev, total_exp]⟩
  · exact sum_filter_amount (fun r => r.flow = "IN (Revenue)") l
  · exact sum_filter_amount (fun r => r.flow = "OUT (Expense)") l

/-- C3 witness: the amended metrics property instantiated at a concrete
two-record ledger. -/
theorem compute_metrics_spec_witness :
    compute_metrics [demoRevRecord, demoExpRecord] =
      [("Total Revenue", total_rev [demoRevRecord, demoExpRecord]),
       ("Total Expenses", total_exp [demoRevRecord, demoExpRecord]),
       ("Net Profit", total_rev [demoRevRecord, demoExpRecord]
          - total_exp [demoRevRecord, demoExpRecord])] ∧
    total_rev [demoRevRecord, demoExpRecord] =
      ([demoRevRecord, demoExpRecord].map
        (fun r => if r.flow = "IN (Revenue)" then r.amount else 0)).sum ∧
    total_exp [demoRevRecord, demoExpRecord] =
      ([demoRevRecord, demoExpRecord].map
        (fun r => if r.flow = "OUT (Expense)" then r.amount else 0)).sum ∧
    compute_metrics [] = [("Total Revenue", 0), ("Total Expenses", 0), ("Net Profit", 0)] :=
  compute_metrics_spec [demoRevRecord, demoExpRecord]

/-- C7 counterexample: the simulator's record count is hard-coded: the loop
always emits 30 records, so no requested count `n` (the spec's scenario asks
for 5) is honoured. -/
theorem rev_data_count_fixed :
    (rev_data 0 demoDraws).length = 30 ∧ (rev_data 0 demoDraws).length ≠ 5 := by
  constructor <;> simp [rev_data]

/-- C7 (amended): the simulator emits exactly 30 records (the count is fixed,
not a parameter); every record has revenue flow, Simulator source, no
receipt, a description/amount/category tuple drawn from the fixed price
list, and a date at most 30 days before (and never after) the processing
date. -/
theorem rev_data_spec (today : ℤ) (draws : ℕ → Fin 2 × Fin 31) :
    (rev_data today draws).length = 30 ∧
    ∀ r ∈ rev_data today draws,
      r.flow = "IN (Revenue)" ∧ r.source = "Simulator" ∧ r.receipt = none ∧
      (r.description, r.amount, r.category) ∈ services ∧
      today - 30 ≤ r.date ∧ r.date ≤ today :=
  ⟨rev_data_length today draws, rev_data_mem_spec today draws⟩

/-- C7 witness: the per-record properties hold for the concrete record the
constant draw stream produces. -/
theorem rev_data_spec_witness :
    ((⟨0, "NCS Tech Fee", 75, "EMG Tech Svc", "Simulator", "IN (Revenue)",
        none⟩ : LedgerRecord).flow = "IN (Revenue)" ∧
      (⟨0, "NCS Tech Fee", 75, "EMG Tech Svc", "Simulator", "IN (Revenue)",
        none⟩ : LedgerRecord).source = "Simulator" ∧
      (⟨0, "NCS Tech Fee", 75, "EMG Tech Svc", "Simulator", "IN (Revenue)",
        none⟩ : LedgerRecord).receipt = none ∧
      ((⟨0, "NCS Tech Fee", 75, "EMG Tech Svc", "Simulator", "IN (Revenue)",
        none⟩ : LedgerRecord).description,
       (⟨0, "NCS Tech Fee", 75, "EMG Tech Svc", "Simulator", "IN (Revenue)",
        none⟩ : LedgerRecord).amount,
       (⟨0, "NCS Tech Fee", 75, "EMG Tech Svc", "Simulator", "IN (Revenue)",
        none⟩ : LedgerRecord).category) ∈ services ∧
      (0 : ℤ) - 30 ≤ (⟨0, "NCS Tech Fee", 75, "EMG Tech Svc", "Simulator",
        "IN (Revenue)", none⟩ : LedgerRecord).date ∧
      (⟨0, "NCS Tech Fee", 75, "EMG Tech Svc", "Simulator", "IN (Revenue)",
        none⟩ : LedgerRecord).date ≤ 0) :=
  (rev_data_spec 0 demoDraws).2
    ⟨0, "NCS Tech Fee", 75, "EMG Tech Svc", "Simulator", "IN (Revenue)", none⟩
    (by decide)

/-- C1 counterexample: one row with a non-numeric `Amount` fails the whole
batch. With a perfectly good first row and a second row whose `Amount` does
not coerce, the adapter raises out of the loop and no record survives
(`none`), even though the good row alone would have converted. -/
theorem sheet_batch_lost :
    sheet_data 0 [goodRow, badAmountRow] = none ∧
    (sheet_data 0 [goodRow]).isSome = true := by
  exact ⟨rfl, rfl⟩

/-- C1 (amended): an unparseable `Date` falls back to the current processing
date without failing the batch, and when every `Amount` coerces the whole
batch converts row by row; but a single non-numeric `Amount` raises
uncaught and loses the entire batch (no per-field fallback, no record
skip). -/
theorem sheet_data_spec (today : ℤ) (rows : List SheetRow) :
    ((∀ r ∈ rows, (r.Amount).isSome) →
      sheet_data today rows = some (rows.map (convRow today))) ∧
    (∀ r : SheetRow, r.Date = none → (convRow today r).date = today) ∧
    ((∃ r ∈ rows, r.Amount = none) → sheet_data today rows = none) := by
  refine ⟨sheet_data_all_parse today rows, ?_, sheet_data_fails today rows⟩
  intro r hd
  simp [convRow, hd]

/-- C1 witness: a concrete row with an unparseable date converts (under the
fallback date 0) and the one-row batch survives. -/
theorem sheet_data_spec_witness :
    sheet_data 0 [dateBadRow] = some ([dateBadRow].map (convRow 0)) ∧
    (convRow 0 dateBadRow).date = 0 := by
  have h := sheet_data_spec 0 [dateBadRow]
  exact ⟨h.1 (by decide), h.2.1 dateBadRow rfl⟩

/-- C5 counterexample: when every input set is empty the merge does not
return an (empty) ledger of length 0: the render halts (`st.stop()`,
modelled as `none`). -/
theorem consolidate_all_empty_halts :
    consolidate ([[], []] : List (List LedgerRecord)) = none ∧
    (consolidate ([[], []] : List (List LedgerRecord))).isSome = false := by
  exact ⟨rfl, rfl⟩

/-- C5 (amended): whenever at least one input set is non-empty, consolidation
skips the empty sets, concatenates the rest, and returns a ledger whose
length is the sum of all input lengths, which is a permutation of the
concatenation and is sorted non-increasing by date; when every set is empty
the render halts instead of returning a ledger. -/
theorem consolidate_correct (sets : List (List LedgerRecord))
    (h : ∃ s ∈ sets, s ≠ []) :
    ∃ l, consolidate sets = some l ∧ l.Perm sets.flatten ∧
      l.length = (sets.map List.length).sum ∧ List.Sorted dateGE l :=
  consolidate_spec sets h

/-- C5 witness: the consolidation contract instantiated at a concrete family
with one non-empty and one empty input set. -/
theorem consolidate_correct_witness :
    ∃ l, consolidate [[demoExpRecord], []] = some l ∧
      l.Perm ([[demoExpRecord], []] : List (List LedgerRecord)).flatten ∧
      l.length = (([[demoExpRecord], []] : List (List LedgerRecord)).map List.length).sum ∧
      List.Sorted dateGE l :=
  consolidate_correct [[demoExpRecord], []] ⟨[demoExpRecord], by simp⟩

/-- Every record of a rendered ledger originates from the bank feed, from a
spreadsheet row whose amount coerced, or from the simulator. -/
theorem main_run_ledger_mem (today : ℤ) (bank : Option (List BankTxn))
    (sheet : Option (List SheetRow)) (draws : ℕ → Fin 2 × Fin 31)
    (res : RenderResult) (h : main_run today bank sheet draws = some res) :
    ∀ r ∈ res.ledger,
      (∃ t ∈ bank.getD [], r = bankRecord t) ∨
      (∃ row ∈ sheet.getD [], (row.Amount).isSome ∧ r = convRow today row) ∨
      r ∈ rev_data today draws := by
  intro r hr
  unfold main_run at h
  cases hsd : sheet_data today (sheet.getD []) with
  | none => rw [hsd] at h; cases h
  | some recs =>
    rw [hsd] at h
    simp only at h
    cases hc : consolidate
        [(bank.getD []).map bankRecord, recs, rev_data today draws] with
    | none => rw [hc] at h; cases h
    | some ledger =>
      rw [hc] at h
      simp only [Option.some.injEq] at h
      subst h
      have hmem := consolidate_mem hc r hr
      obtain ⟨hrecs, hall⟩ := sheet_data_some_eq today (sheet.getD []) recs hsd
      simp only [List.flatten, List.append_nil, List.mem_append] at hmem
      rcases hmem with hp | hs | hv
      · obtain ⟨t, ht, rfl⟩ := List.mem_map.mp hp
        exact Or.inl ⟨t, ht, rfl⟩
      · subst hrecs
        obtain ⟨row, hrow, rfl⟩ := List.mem_map.mp hs
        exact Or.inr (Or.inl ⟨row, hrow, hall row hrow, rfl⟩)
      · exact Or.inr (Or.inr hv)

/-- C2: when the Plaid fetch raises (any failure) and the sheet rows all
coerce, the render still completes: the error is shown (`plaidError`), the
bank feed contributes nothing, and the consolidated ledger consists exactly
of the spreadsheet and simulator records (30 of the latter). -/
theorem bank_failure_isolated (today : ℤ) (rows : List SheetRow)
    (draws : ℕ → Fin 2 × Fin 31) (h : ∀ r ∈ rows, (r.Amount).isSome) :
    ∃ res, main_run today none (some rows) draws = some res ∧
      res.plaidError = true ∧ res.sheetWarning = false ∧
      res.ledger.Perm (rows.map (convRow today) ++ rev_data today draws) ∧
      res.ledger.length = rows.length + 30 := by
  have hs : sheet_data today rows = some (rows.map (convRow today)) :=
    sheet_data_all_parse today rows h
  have hex : ∃ s ∈ [([] : List BankTxn).map bankRecord,
      rows.map (convRow today), rev_data today draws], s ≠ [] := by
    refine ⟨rev_data today draws, by simp, ?_⟩
    intro hnil
    have h30 := rev_data_length today draws
    rw [hnil] at h30
    simp at h30
  obtain ⟨l, hc, hperm, hlen, hsort⟩ := consolidate_spec _ hex
  refine ⟨⟨true, false, l⟩, ?_, rfl, rfl, ?_, ?_⟩
  · unfold main_run
    simp only [Option.getD_some, Option.getD_none, Option.isNone_none, Option.isNone_some]
    rw [hs]
    simp only [hc]
  · have heq : ([([] : List BankTxn).map bankRecord,
        rows.map (convRow today), rev_data today draws]).flatten
        = rows.map (convRow today) ++ rev_data today draws := by simp
    exact heq ▸ hperm
  · rw [show (⟨true, false, l⟩ : RenderResult).ledger = l from rfl, hlen]
    simp [rev_data_length]

/-- C2 witness: the bank-failure scenario at a concrete render: bank fetch
fails, one valid sheet row, constant simulator draws. -/
theorem bank_failure_isolated_witness :
    ∃ res, main_run 0 none (some [goodRow]) demoDraws = some res ∧
      res.plaidError = true ∧ res.sheetWarning = false ∧
      res.ledger.Perm ([goodRow].map (convRow 0) ++ rev_data 0 demoDraws) ∧
      res.ledger.length = [goodRow].length + 30 :=
  bank_failure_isolated 0 [goodRow] demoDraws (by decide)

/-- C8 counterexample: the actual provenance tags are
"Bank Feed (Plaid)" and "Google Sheet", not the spec's "Bank Feed" and
"Spreadsheet": concrete records produced by the two adapters carry tags
outside the claimed set. -/
theorem source_tag_mismatch :
    (convRow 0 goodRow).source = "Google Sheet" ∧
    "Google Sheet" ∉ (["Bank Feed", "Spreadsheet", "Simulator"] : List String) ∧
    (bankRecord negTxn).source = "Bank Feed (Plaid)" ∧
    "Bank Feed (Plaid)" ∉ (["Bank Feed", "Spreadsheet", "Simulator"] : List String) := by
  refine ⟨rfl, by decide, rfl, by decide⟩

/-- C8 (amended): every record of any rendered ledger carries a source tag
drawn from exactly {"Bank Feed (Plaid)", "Google Sheet", "Simulator"} and a
flow drawn from exactly the two direction labels
{"IN (Revenue)", "OUT (Expense)"}. -/
theorem sources_and_flows (today : ℤ) (bank : Option (List BankTxn))
    (sheet : Option (List SheetRow)) (draws : ℕ → Fin 2 × Fin 31)
    (res : RenderResult) (h : main_run today bank sheet draws = some res) :
    ∀ r ∈ res.ledger,
      r.source ∈ (["Bank Feed (Plaid)", "Google Sheet", "Simulator"] : List String) ∧
      r.flow ∈ (["IN (Revenue)", "OUT (Expense)"] : List String) := by
  intro r hr
  rcases main_run_ledger_mem today bank sheet draws res h r hr with
    ⟨t, _, rfl⟩ | ⟨row, _, _, rfl⟩ | hrev
  · simp [bankRecord]
  · simp [convRow]
  · have hspec := rev_data_mem_spec today draws r hrev
    rw [hspec.1, hspec.2.1]
    simp

/-- C8 witness: the source/flow invariant applied to a concrete record of a
concrete render (both external fetches failed; the ledger is the simulator
output). -/
theorem sources_and_flows_witness :
    (⟨0, "NCS Tech Fee", 75, "EMG Tech Svc", "Simulator", "IN (Revenue)", none⟩
        : LedgerRecord).source
      ∈ (["Bank Feed (Plaid)", "Google Sheet", "Simulator"] : List String) ∧
    (⟨0, "NCS Tech Fee", 75, "EMG Tech Svc", "Simulator", "IN (Revenue)", none⟩
        : LedgerRecord).flow
      ∈ (["IN (Revenue)", "OUT (Expense)"] : List String) :=
  sources_and_flows 0 none none demoDraws ⟨true, true, rev_data 0 demoDraws⟩
    (by decide)
    ⟨0, "NCS Tech Fee", 75, "EMG Tech Svc", "Simulator", "IN (Revenue)", none⟩
    (by decide)

/-- C9 counterexample: amounts are passed through unchanged, so a raw bank
transaction with a negative amount yields a consolidated ledger containing a
record with a negative amount. -/
theorem negative_amount_passthrough :
    consolidate [[bankRecord negTxn]] = some [bankRecord negTxn] ∧
    (bankRecord negTxn).amount < 0 := by
  refine ⟨rfl, ?_⟩
  norm_num [bankRecord, negTxn]

/-- C9 (amended): amounts are copied verbatim from the sources (simulator
amounts are the fixed positive prices), so every rendered ledger record has
a non-negative amount provided the raw bank amounts and the coerced sheet
amounts are non-negative. -/
theorem amounts_nonneg (today : ℤ) (bank : Option (List BankTxn))
    (sheet : Option (List SheetRow)) (draws : ℕ → Fin 2 × Fin 31)
    (res : RenderResult) (h : main_run today bank sheet draws = some res)
    (hbank : ∀ t ∈ bank.getD [], 0 ≤ t.amount)
    (hsheet : ∀ row ∈ sheet.getD [], ∀ a, row.Amount = some a → 0 ≤ a) :
    ∀ r ∈ res.ledger, 0 ≤ r.amount := by
  intro r hr
  rcases main_run_ledger_mem today bank sheet draws res h r hr with
    ⟨t, ht, rfl⟩ | ⟨row, hrow, hsome, rfl⟩ | hrev
  · exact hbank t ht
  · obtain ⟨a, ha⟩ := Option.isSome_iff_exists.mp hsome
    have h0 := hsheet row hrow a ha
    simpa [convRow, ha] using h0
  · have hmem := (rev_data_mem_spec today draws r hrev).2.2.2.1
    simp only [services, List.mem_cons, List.not_mem_nil, or_false] at hmem
    rcases hmem with h1 | h1
    · have ha := congrArg (fun p : String × ℚ × String => p.2.1) h1
      simp only at ha
      rw [ha]; norm_num
    · have ha := congrArg (fun p : String × ℚ × String => p.2.1) h1
      simp only at ha
      rw [ha]; norm_num

/-- C9 witness: a concrete render with a non-negative bank amount and no
sheet rows: the bank record in the ledger has a non-negative amount. -/
theorem amounts_nonneg_witness :
    0 ≤ (bankRecord ⟨5, "Uber", 40⟩).amount :=
  amounts_nonneg 0 (some [⟨5, "Uber", 40⟩]) (some []) demoDraws
    ⟨false, false, bankRecord ⟨5, "Uber", 40⟩ :: rev_data 0 demoDraws⟩
    (by decide) (by decide) (by simp)
    (bankRecord ⟨5, "Uber", 40⟩) (by decide)
